import Mathlib

/-!
Verification of the boardgame.io client runtime (`src/client/client.js`):
the log-reconciliation middleware, identity resolution in dispatchers,
the `getState` projection, the autoplay `step` entry point, and the
identity mutators. JavaScript values that may be `null`/`undefined` are
embedded with explicit variants; a JavaScript field that may be absent is
an `Option`; a computation that throws is `Option`-valued with `none` for
the thrown case.
-/

namespace BoardgameClient

/-- A JavaScript player identifier: `undefined`, `null`, or a string. -/
inductive PlayerID where
  | undefined
  | null
  | str (s : String)
deriving DecidableEq, Repr, BEq

/-- The `multiplayer` option after the constructor normalizes
`{ server }` to `true`: either `undefined` or a boolean. -/
inductive MultiplayerValue where
  | undefined
  | boolean (b : Bool)
deriving DecidableEq, Repr, BEq

/-- JavaScript truthiness of the normalized `multiplayer` value. -/
def MultiplayerValue.truthy : MultiplayerValue → Bool
  | .undefined => false
  | .boolean b => b

/-- The raw `multiplayer` constructor option: absent, a boolean, or an
object `{ server }`. -/
inductive MultiplayerConfigInput where
  | undefined
  | boolean (b : Bool)
  | serverObj (server : String)
deriving DecidableEq, Repr

/-- Lines 94-98 of `client.js`: when `multiplayer` is an object with a
`server` key, capture the server address and set `multiplayer = true`. -/
def normalizeMultiplayer : MultiplayerConfigInput → MultiplayerValue × Option String
  | .undefined => (.undefined, none)
  | .boolean b => (.boolean b, none)
  | .serverObj s => (.boolean true, some s)

/-- Game-flow context. `gameover` is `none` when the JS field is
`undefined`. -/
structure Ctx where
  currentPlayer : String
  gameover : Option String
  actionPlayers : List String
deriving DecidableEq, Repr

/-- The redux store state `{ G, ctx, deltalog? }`. `deltalog` is `none`
when the field is absent (`undefined`). `γ` is the opaque game state,
`α` the opaque log-entry type. -/
structure StoreState (γ α : Type) where
  G : γ
  ctx : Ctx
  deltalog : Option (List α)
deriving Repr

/-- Action types recognized by the log middleware; `OTHER` stands for
any action type outside the enumerated set. -/
inductive ActionType where
  | MAKE_MOVE
  | GAME_EVENT
  | RESET
  | UNDO
  | REDO
  | UPDATE
  | SYNC
  | OTHER (tag : String)
deriving DecidableEq, Repr, BEq

/-- The payload of a move/event action produced by the action creators:
`{ type: name, args, playerID, credentials }`. -/
structure ActionPayload where
  type : String
  args : List String
  playerID : PlayerID
  credentials : Option String
deriving DecidableEq, Repr

/-- A dispatched redux action. `payload` is carried by move/event
actions; `deltalog`/`log` by `update`/`sync` actions from the server
(`none` when the field is absent). -/
structure Action (α : Type) where
  type : ActionType
  payload : Option ActionPayload := none
  deltalog : Option (List α) := none
  log : Option (List α) := none
deriving Repr, DecidableEq

namespace ActionCreators

/-- Embeds `ActionCreators.makeMove(type, args, playerID, credentials)`. -/
def makeMove (α : Type) (type : String) (args : List String)
    (playerID : PlayerID) (credentials : Option String) : Action α :=
  { type := .MAKE_MOVE
    payload := some { type, args, playerID, credentials } }

/-- Embeds `ActionCreators.gameEvent(type, args, playerID, credentials)`. -/
def gameEvent (α : Type) (type : String) (args : List String)
    (playerID : PlayerID) (credentials : Option String) : Action α :=
  { type := .GAME_EVENT
    payload := some { type, args, playerID, credentials } }

/-- Embeds `ActionCreators.reset()`. -/
def reset (α : Type) : Action α := { type := .RESET }

end ActionCreators

/-- The `LogMiddleware` of `client.js` lines 147-177, as the update it
performs on the client's log mirror `this.log` after the reducer has
produced the post-apply store `state`. Returns `none` when the
JavaScript code throws: in the `MAKE_MOVE`/`GAME_EVENT` branch,
`state.deltalog` is read with no default, so spreading it when the
field is absent (`undefined`) throws a `TypeError`. -/
def LogMiddleware {γ α : Type} (action : Action α) (state : StoreState γ α)
    (log : List α) : Option (List α) :=
  match action.type with
  | .MAKE_MOVE | .GAME_EVENT =>
    match state.deltalog with
    | some deltalog => some (log ++ deltalog)
    | none => none
  | .RESET => some []
  | .UPDATE => some (log ++ action.deltalog.getD [])
  | .SYNC => some (action.log.getD [])
  | _ => some log

/-- The `game.flow` object: event names plus the turn-legality check. -/
structure Flow (γ : Type) where
  eventNames : List String
  canPlayerMakeMove : γ → Ctx → PlayerID → Bool

/-- The `game` object as the client uses it. -/
structure Game (γ : Type) where
  moveNames : List String
  flow : Flow γ
  playerView : γ → Ctx → PlayerID → γ

/-- A dispatcher closure: given the call-time arguments and the
call-time store state, the action it dispatches into the store. -/
def Dispatcher (γ α : Type) := List String → StoreState γ α → Action α

/-- Embeds `createDispatchers` (lines 20-50): for each inner action name,
build a closure that resolves the acting player at call time — when
`multiplayer` is falsy and the bound `playerID` is `null` or
`undefined`, it reads `ctx.currentPlayer` from the current store state —
and dispatches the created action. The creator function stands for
`ActionCreators[storeActionType]`. -/
def createDispatchers {γ α : Type}
    (actionCreator : String → List String → PlayerID → Option String → Action α)
    (innerActionNames : List String) (playerID : PlayerID)
    (credentials : Option String) (multiplayer : MultiplayerValue) :
    List (String × Dispatcher γ α) :=
  innerActionNames.map fun name =>
    (name, fun args state =>
      let assumedPlayerID :=
        if !multiplayer.truthy &&
            (playerID == PlayerID.null || playerID == PlayerID.undefined) then
          PlayerID.str state.ctx.currentPlayer
        else playerID
      actionCreator name args assumedPlayerID credentials)

/-- Embeds `createMoveDispatchers = createDispatchers.bind(null, 'makeMove')`. -/
def createMoveDispatchers {γ α : Type} :=
  @createDispatchers γ α (ActionCreators.makeMove α)

/-- Embeds `createEventDispatchers = createDispatchers.bind(null, 'gameEvent')`. -/
def createEventDispatchers {γ α : Type} :=
  @createDispatchers γ α (ActionCreators.gameEvent α)

/-- The mutable fields of `_ClientImpl` that the claims concern:
identity, the normalized `multiplayer` value, the log mirror, the
transport component (`multiplayerClient`) when present, and the two
dispatcher sets. -/
structure ClientRecord (γ α : Type) where
  game : Game γ
  playerID : PlayerID
  gameID : Option String
  credentials : Option String
  multiplayer : MultiplayerValue
  log : List α
  hasMultiplayerClient : Bool
  isConnected : Bool
  moves : List (String × Dispatcher γ α)
  events : List (String × Dispatcher γ α)

/-- The object returned by `getState()`: the spread of the store state
with `isActive`, the player-filtered `G`, the log mirror, and — only
when a transport is attached — `isConnected`. -/
structure ViewState (γ α : Type) where
  G : γ
  ctx : Ctx
  deltalog : Option (List α)
  isActive : Bool
  log : List α
  isConnected : Option Bool

namespace ClientImpl

/-- Embeds `_ClientImpl.getState` (lines 215-259), with the store state passed
explicitly in place of `this.store.getState()`. -/
def getState {γ α : Type} (c : ClientRecord γ α) (state : StoreState γ α) :
    ViewState γ α :=
  let canPlayerMakeMove :=
    c.game.flow.canPlayerMakeMove state.G state.ctx c.playerID
  let isActive := true
  let isActive :=
    if c.multiplayer.truthy && !canPlayerMakeMove then false else isActive
  let isActive :=
    if !c.multiplayer.truthy && c.playerID != PlayerID.null &&
        c.playerID != PlayerID.undefined && !canPlayerMakeMove then
      false
    else isActive
  let isActive := if state.ctx.gameover.isSome then false else isActive
  let G := c.game.playerView state.G state.ctx c.playerID
  let ret : ViewState γ α :=
    { G, ctx := state.ctx, deltalog := state.deltalog, isActive,
      log := c.log, isConnected := none }
  if c.hasMultiplayerClient then { ret with isConnected := some c.isConnected }
  else ret

end ClientImpl

end BoardgameClient

namespace BoardgameClient

/-- C1: for every dispatched make-move or game-event action, when the
post-apply store state carries `deltalog = d`, the middleware sets the
log mirror to exactly the prior mirror with `d` appended, in order. -/
theorem makeMove_gameEvent_appends_deltalog {γ α : Type}
    (action : Action α) (state : StoreState γ α) (log : List α) (d : List α)
    (htype : action.type = .MAKE_MOVE ∨ action.type = .GAME_EVENT)
    (hd : state.deltalog = some d) :
    LogMiddleware action state log = some (log ++ d) := by
  rcases htype with h | h <;> simp [LogMiddleware, h, hd]

/-- Witness for C1 at a concrete move action, state and mirror. -/
theorem makeMove_gameEvent_appends_deltalog_witness :
    LogMiddleware (ActionCreators.makeMove Nat "draw" [] .undefined none)
      (StoreState.mk 0 (Ctx.mk "0" none []) (some [7, 8])) [5]
      = some [5, 7, 8] :=
  makeMove_gameEvent_appends_deltalog _ _ [5] [7, 8] (Or.inl rfl) rfl

/-- C2: dispatching a `sync` action replaces the log mirror wholesale
with `action.log`, independent of the prior mirror contents, defaulting
to the empty sequence when the field is absent. -/
theorem sync_replaces_log {γ α : Type}
    (action : Action α) (state : StoreState γ α) (log : List α)
    (htype : action.type = .SYNC) :
    LogMiddleware action state log = some (action.log.getD []) := by
  simp [LogMiddleware, htype]

/-- Witness for C2: a sync action carrying a 2-entry log replaces a
1-entry mirror, and a bare sync action empties it. -/
theorem sync_replaces_log_witness :
    LogMiddleware (Action.mk .SYNC none none (some [7, 8]))
      (StoreState.mk 0 (Ctx.mk "0" none []) none) [5] = some [7, 8] ∧
    LogMiddleware (Action.mk .SYNC none none (none : Option (List Nat)))
      (StoreState.mk 0 (Ctx.mk "0" none []) none) [5] = some [] :=
  ⟨sync_replaces_log _ _ [5] rfl, sync_replaces_log _ _ [5] rfl⟩

/-- C3: `reset` empties the mirror regardless of prior contents;
`update` appends `action.deltalog` (empty when absent) leaving every
prior entry unchanged; every other non-enumerated action kind leaves
the mirror unchanged; and whenever the middleware succeeds on an action
that is neither `reset` nor `sync`, the prior mirror is a prefix of the
new one, so no entry is lost. -/
theorem log_mirror_invariant {γ α : Type}
    (action : Action α) (state : StoreState γ α) (log : List α) :
    (action.type = .RESET → LogMiddleware action state log = some []) ∧
    (action.type = .UPDATE →
      LogMiddleware action state log = some (log ++ action.deltalog.getD [])) ∧
    ((action.type = .UNDO ∨ action.type = .REDO ∨
        ∃ t, action.type = .OTHER t) →
      LogMiddleware action state log = some log) ∧
    (action.type ≠ .RESET → action.type ≠ .SYNC →
      ∀ log', LogMiddleware action state log = some log' → log <+: log') := by
  refine ⟨fun h => by simp [LogMiddleware, h],
    fun h => by simp [LogMiddleware, h],
    fun h => by
      rcases h with h | h | ⟨t, h⟩ <;> simp [LogMiddleware, h],
    fun hr hs log' hmid => ?_⟩
  cases htype : action.type with
  | MAKE_MOVE =>
    rw [LogMiddleware, htype] at hmid
    cases hd : state.deltalog with
    | none => rw [hd] at hmid; cases hmid
    | some d =>
      rw [hd] at hmid
      exact (Option.some_inj.mp hmid) ▸ List.prefix_append log d
  | GAME_EVENT =>
    rw [LogMiddleware, htype] at hmid
    cases hd : state.deltalog with
    | none => rw [hd] at hmid; cases hmid
    | some d =>
      rw [hd] at hmid
      exact (Option.some_inj.mp hmid) ▸ List.prefix_append log d
  | RESET => exact absurd htype hr
  | SYNC => exact absurd htype hs
  | UNDO =>
    rw [LogMiddleware, htype] at hmid
    exact (Option.some_inj.mp hmid) ▸ List.prefix_rfl
  | REDO =>
    rw [LogMiddleware, htype] at hmid
    exact (Option.some_inj.mp hmid) ▸ List.prefix_rfl
  | UPDATE =>
    rw [LogMiddleware, htype] at hmid
    exact (Option.some_inj.mp hmid) ▸ List.prefix_append _ _
  | OTHER t =>
    rw [LogMiddleware, htype] at hmid
    exact (Option.some_inj.mp hmid) ▸ List.prefix_rfl

/-- Witness for C3, exercising each conjunct at concrete inputs:
reset empties a nonempty mirror; update appends; undo leaves the mirror
unchanged; a successful update preserves the prior mirror as prefix. -/
theorem log_mirror_invariant_witness :
    LogMiddleware (Action.mk .RESET none none none)
      (StoreState.mk 0 (Ctx.mk "0" none []) none) [5] = some [] ∧
    LogMiddleware (Action.mk .UPDATE none (some [7]) none)
      (StoreState.mk 0 (Ctx.mk "0" none []) none) [5] = some [5, 7] ∧
    LogMiddleware (Action.mk .UNDO none none (none : Option (List Nat)))
      (StoreState.mk 0 (Ctx.mk "0" none []) none) [5] = some [5] ∧
    [5] <+: [5, 7] := by
  refine ⟨(log_mirror_invariant _ (StoreState.mk 0 (Ctx.mk "0" none []) none) [5]).1 rfl,
    ?_, ?_, ?_⟩
  · have h := (log_mirror_invariant (Action.mk .UPDATE none (some [7]) none)
      (StoreState.mk 0 (Ctx.mk "0" none []) none) [5]).2.1 rfl
    simpa using h
  · exact (log_mirror_invariant _ (StoreState.mk 0 (Ctx.mk "0" none []) none) [5]).2.2.1
      (Or.inl rfl)
  · exact (log_mirror_invariant (Action.mk .UPDATE none (some [7]) none)
      (StoreState.mk (0 : Nat) (Ctx.mk "0" none []) none) [5]).2.2.2
      (by decide) (by decide) [5, 7] (by decide)

/-- C10: the make-move/game-event branch reads the post-apply state's
`deltalog` with no default, so when that field is absent the mirror
update throws (`none`); the `update` and `sync` branches substitute an
empty sequence when their action field is absent. -/
theorem deltalog_no_default {γ α : Type}
    (state : StoreState γ α) (log : List α)
    (hd : state.deltalog = none) :
    (∀ action : Action α,
      action.type = .MAKE_MOVE ∨ action.type = .GAME_EVENT →
      LogMiddleware action state log = none) ∧
    (∀ action : Action α, action.type = .UPDATE → action.deltalog = none →
      LogMiddleware action state log = some log) ∧
    (∀ action : Action α, action.type = .SYNC → action.log = none →
      LogMiddleware action state log = some []) := by
  refine ⟨fun action h => ?_, fun action h hdl => ?_, fun action h hl => ?_⟩
  · rcases h with h | h <;> simp [LogMiddleware, h, hd]
  · simp [LogMiddleware, h, hdl]
  · simp [LogMiddleware, h, hl]

/-- Witness for C10: on a state with no `deltalog`, a move dispatch
fails, while a bare update and a bare sync succeed with defaults. -/
theorem deltalog_no_default_witness :
    LogMiddleware (ActionCreators.makeMove Nat "draw" [] .undefined none)
      (StoreState.mk 0 (Ctx.mk "0" none []) none) [5] = none ∧
    LogMiddleware (Action.mk .UPDATE none none (none : Option (List Nat)))
      (StoreState.mk 0 (Ctx.mk "0" none []) none) [5] = some [5] ∧
    LogMiddleware (Action.mk .SYNC none none (none : Option (List Nat)))
      (StoreState.mk 0 (Ctx.mk "0" none []) none) [5] = some [] := by
  have h := deltalog_no_default
    (StoreState.mk (0 : Nat) (Ctx.mk "0" none []) (none : Option (List Nat))) [5] rfl
  exact ⟨h.1 _ (Or.inl rfl), h.2.1 _ rfl rfl, h.2.2 _ rfl rfl⟩

end BoardgameClient

namespace BoardgameClient

/-- A concrete game used to instantiate witnesses: one move, one event,
`canPlayerMakeMove` holds exactly for player "0", `playerView` adds 10. -/
def demoGame : Game Nat :=
  { moveNames := ["draw"]
    flow :=
      { eventNames := ["endTurn"]
        canPlayerMakeMove := fun _ _ p => p == PlayerID.str "0" }
    playerView := fun g _ _ => g + 10 }

/-- A concrete single-player client record over `Nat` game state and
`Nat` log entries, with unset `playerID` and no transport. -/
def demoLocalClient : ClientRecord Nat Nat :=
  ClientRecord.mk demoGame .undefined none none .undefined [] false false [] []

/-- A concrete multiplayer client record with `playerID = "0"`. -/
def demoMultiClient : ClientRecord Nat Nat :=
  ClientRecord.mk demoGame (.str "0") none none (.boolean true) [] true true [] []

@[simp]
lemma bne_null_self : (PlayerID.null != PlayerID.null) = false := rfl

@[simp]
lemma bne_undefined_self : (PlayerID.undefined != PlayerID.undefined) = false := rfl

@[simp]
lemma bne_str_null (s : String) : (PlayerID.str s != PlayerID.null) = true := rfl

@[simp]
lemma bne_str_undefined (s : String) :
    (PlayerID.str s != PlayerID.undefined) = true := rfl

/-- C4 counterexample: a single-player client (multiplayer `undefined`,
hence falsy) with unset `playerID`, on a store state whose
`ctx.gameover` is defined, has `getState().isActive = false` — refuting
the claim that `isActive` is true for every store state in this
configuration. -/
theorem singleplayer_unset_isActive_cex :
    (ClientImpl.getState demoLocalClient
      (StoreState.mk 0 (Ctx.mk "1" (some "win") []) none)).isActive = false := rfl

/-- C4 amended: for every single-player configuration (multiplayer
falsy) whose `playerID` is unset (`null` or `undefined`), and for every
store state whose `ctx.gameover` is undefined, `getState().isActive` is
true, regardless of `ctx.currentPlayer` or `canPlayerMakeMove`. -/
theorem singleplayer_unset_isActive {γ α : Type}
    (c : ClientRecord γ α) (state : StoreState γ α)
    (hm : c.multiplayer.truthy = false)
    (hp : c.playerID = .null ∨ c.playerID = .undefined)
    (hg : state.ctx.gameover = none) :
    (ClientImpl.getState c state).isActive = true := by
  rcases hp with hp | hp <;>
    cases hmc : c.hasMultiplayerClient <;>
      simp [ClientImpl.getState, hm, hp, hg, hmc]

/-- Witness for C4 amended: a single-player client with unset
`playerID` is active on a game-not-over state even though
`canPlayerMakeMove` is false for the unset player. -/
theorem singleplayer_unset_isActive_witness :
    (ClientImpl.getState demoLocalClient
      (StoreState.mk 0 (Ctx.mk "1" none []) none)).isActive = true :=
  singleplayer_unset_isActive _ _ rfl (Or.inr rfl) rfl

/-- C5: for every multiplayer configuration, and for every
single-player configuration with a concrete (non-null, non-undefined)
`playerID`, `getState().isActive` equals
`canPlayerMakeMove(G, ctx, playerID)` on the current state, except that
it is false whenever `ctx.gameover` is defined. -/
theorem isActive_eq_canPlayerMakeMove {γ α : Type}
    (c : ClientRecord γ α) (state : StoreState γ α)
    (h : c.multiplayer.truthy = true ∨
      (c.playerID ≠ .null ∧ c.playerID ≠ .undefined)) :
    (ClientImpl.getState c state).isActive =
      (c.game.flow.canPlayerMakeMove state.G state.ctx c.playerID &&
        !state.ctx.gameover.isSome) := by
  rcases h with h | ⟨h1, h2⟩
  · cases hmc : c.hasMultiplayerClient <;>
      cases hcan : c.game.flow.canPlayerMakeMove state.G state.ctx c.playerID <;>
        cases hgo : state.ctx.gameover <;>
          simp [ClientImpl.getState, hmc, hcan, hgo, h]
  · obtain ⟨s, hs⟩ : ∃ s, c.playerID = .str s := by
      cases hp : c.playerID
      · exact absurd hp h2
      · exact absurd hp h1
      · exact ⟨_, rfl⟩
    cases hm : c.multiplayer.truthy <;>
      cases hmc : c.hasMultiplayerClient <;>
        cases hcan :
            c.game.flow.canPlayerMakeMove state.G state.ctx (PlayerID.str s) <;>
          cases hgo : state.ctx.gameover <;>
            simp [ClientImpl.getState, hmc, hcan, hgo, hm, hs]

/-- Witness for C5: a multiplayer client whose player "0" can move in a
game-not-over state is active, and is inactive once `gameover` is set. -/
theorem isActive_eq_canPlayerMakeMove_witness :
    (ClientImpl.getState demoMultiClient
      (StoreState.mk 0 (Ctx.mk "0" none []) none)).isActive =
      (demoGame.flow.canPlayerMakeMove 0 (Ctx.mk "0" none []) (.str "0") &&
        !(Ctx.mk "0" none []).gameover.isSome) ∧
    (ClientImpl.getState demoMultiClient
      (StoreState.mk 0 (Ctx.mk "0" (some "win") []) none)).isActive =
      (demoGame.flow.canPlayerMakeMove 0 (Ctx.mk "0" (some "win") []) (.str "0") &&
        !(Ctx.mk "0" (some "win") []).gameover.isSome) :=
  ⟨isActive_eq_canPlayerMakeMove demoMultiClient _ (Or.inl rfl),
    isActive_eq_canPlayerMakeMove demoMultiClient _ (Or.inl rfl)⟩

/-- C7: for every configuration and every store state, `getState()`
returns `G` equal to `game.playerView(state.G, state.ctx, playerID)` —
also when multiplayer is not configured — and returns `log` equal to
the client's log mirror. -/
theorem getState_playerView_and_log_mirror {γ α : Type}
    (c : ClientRecord γ α) (state : StoreState γ α) :
    (ClientImpl.getState c state).G =
      c.game.playerView state.G state.ctx c.playerID ∧
    (ClientImpl.getState c state).log = c.log := by
  cases hmc : c.hasMultiplayerClient <;> simp [ClientImpl.getState, hmc]

end BoardgameClient

namespace BoardgameClient

/-- Any binding found by `lookup` in a list mapping each name `n` to
`mk n` equals `mk name` for the looked-up `name`; used to identify the
dispatcher bound to a move/event name. -/
lemma lookup_map_mk {β : Type} (mk : String → β) (names : List String)
    (name : String) (b : β)
    (h : ((names.map fun n => (n, mk n)).lookup name) = some b) :
    b = mk name := by
  induction names with
  | nil => simp [List.lookup] at h
  | cons x xs ih =>
    rw [List.map_cons, List.lookup] at h
    cases hx : (name == x) with
    | true =>
      rw [hx] at h
      injection h with h
      rw [eq_of_beq hx]
      exact h.symm
    | false =>
      rw [hx] at h
      exact ih h

/-- C6: a move or event dispatcher, invoked with arguments and the
store state current at call time, dispatches an action whose payload
carries `ctx.currentPlayer` of that call-time state when multiplayer is
falsy and the configured `playerID` is `null` or `undefined`, and the
configured `playerID` unchanged in every other case. -/
theorem dispatcher_resolves_playerID {γ α : Type}
    (moveNames eventNames : List String) (moveName eventName : String)
    (playerID : PlayerID) (credentials : Option String)
    (multiplayer : MultiplayerValue) (f g : Dispatcher γ α)
    (hf : (@createMoveDispatchers γ α moveNames playerID credentials
      multiplayer).lookup moveName = some f)
    (hg : (@createEventDispatchers γ α eventNames playerID credentials
      multiplayer).lookup eventName = some g)
    (args : List String) (state : StoreState γ α) :
    f args state =
      ActionCreators.makeMove α moveName args
        (if !multiplayer.truthy &&
            (playerID == PlayerID.null || playerID == PlayerID.undefined) then
          PlayerID.str state.ctx.currentPlayer
        else playerID) credentials ∧
    g args state =
      ActionCreators.gameEvent α eventName args
        (if !multiplayer.truthy &&
            (playerID == PlayerID.null || playerID == PlayerID.undefined) then
          PlayerID.str state.ctx.currentPlayer
        else playerID) credentials := by
  have hf' := lookup_map_mk _ _ _ _ hf
  have hg' := lookup_map_mk _ _ _ _ hg
  subst hf' hg'
  constructor <;> rfl

/-- Witness for C6: with no configured player (`undefined`) in
single-player mode, a looked-up "draw" move dispatcher and an "endTurn"
event dispatcher both stamp the call-time `ctx.currentPlayer` "2" into
the dispatched payload. -/
theorem dispatcher_resolves_playerID_witness :
    ((@createMoveDispatchers Nat Nat ["draw"] .undefined none
        .undefined).lookup "draw").map
      (fun f => f ["1"] (StoreState.mk 0 (Ctx.mk "2" none []) none)) =
      some (ActionCreators.makeMove Nat "draw" ["1"] (.str "2") none) ∧
    ((@createEventDispatchers Nat Nat ["endTurn"] .undefined none
        .undefined).lookup "endTurn").map
      (fun g => g [] (StoreState.mk 0 (Ctx.mk "2" none []) none)) =
      some (ActionCreators.gameEvent Nat "endTurn" [] (.str "2") none) := by
  obtain ⟨f, hf⟩ : ∃ f, (@createMoveDispatchers Nat Nat ["draw"] .undefined none
      .undefined).lookup "draw" = some f := ⟨_, rfl⟩
  obtain ⟨g, hg⟩ : ∃ g, (@createEventDispatchers Nat Nat ["endTurn"] .undefined none
      .undefined).lookup "endTurn" = some g := ⟨_, rfl⟩
  have h := dispatcher_resolves_playerID ["draw"] ["endTurn"] "draw" "endTurn"
    .undefined none .undefined f g hf hg ["1"]
    (StoreState.mk 0 (Ctx.mk "2" none []) none)
  have h2 := dispatcher_resolves_playerID ["draw"] ["endTurn"] "draw" "endTurn"
    .undefined none .undefined f g hf hg []
    (StoreState.mk 0 (Ctx.mk "2" none []) none)
  refine ⟨?_, ?_⟩
  · rw [hf, Option.map_some', h.1]
    decide
  · rw [hg, Option.map_some', h2.2]
    decide

/-- The payload of an action proposed by the autoplay bot; `base`
stands for its opaque contents, `metadata` for the `metadata` field the
client attaches before dispatching. -/
structure StepPayload (μ : Type) where
  base : String
  metadata : Option μ
deriving DecidableEq, Repr

/-- An action proposed by the autoplay bot. -/
structure StepAction (μ : Type) where
  payload : StepPayload μ
deriving DecidableEq, Repr

/-- The `{ action, metadata }` pair returned by `bot.play`; `action`
may be absent. -/
structure PlayResult (μ : Type) where
  action : Option (StepAction μ)
  metadata : μ
deriving DecidableEq, Repr

namespace ClientImpl

/-- Embeds `this.step` (lines 111-122): read `ctx.actionPlayers[0]`
(`undefined` on an empty array) from the current store state, ask the
bot to play, and when an action was produced, set
`action.payload.metadata` and dispatch it. Returns the pair of the
value `step()` returns and the list of actions it dispatched. -/
def step {γ α μ : Type}
    (play : StoreState γ α → Option String → PlayResult μ)
    (state : StoreState γ α) : Option (StepAction μ) × List (StepAction μ) :=
  let playerID := state.ctx.actionPlayers.head?
  let r := play state playerID
  match r.action with
  | some action =>
    let action := { action with
      payload := { action.payload with metadata := some r.metadata } }
    (some action, [action])
  | none => (none, [])

end ClientImpl

/-- Lines 108-123 of the constructor: `this.step` exists iff
`ai !== undefined && multiplayer === undefined` (checked after the
`{ server }` normalization). The `ai` option is modelled by the play
function of the bot it constructs. -/
def constructStep {γ α μ : Type}
    (ai : Option (StoreState γ α → Option String → PlayResult μ))
    (multiplayer : MultiplayerValue) :
    Option (StoreState γ α → Option (StepAction μ) × List (StepAction μ)) :=
  match ai with
  | some play =>
    if multiplayer == .undefined then some (ClientImpl.step play) else none
  | none => none

end BoardgameClient

namespace BoardgameClient

/-- C8: the `step()` entry point exists exactly when an autoplay
strategy is supplied and `multiplayer` is not configured; a `step()`
call asks the strategy for `(action, metadata)` given the current store
state and `ctx.actionPlayers[0]`, and when an action was produced it
attaches the metadata to the action's payload and dispatches it,
returning the action — or nothing when the strategy produced none. -/
theorem step_defined_iff {γ α μ : Type}
    (ai : Option (StoreState γ α → Option String → PlayResult μ))
    (multiplayer : MultiplayerValue)
    (play : StoreState γ α → Option String → PlayResult μ)
    (state : StoreState γ α) :
    ((constructStep ai multiplayer).isSome = true ↔
      (ai.isSome = true ∧ multiplayer = .undefined)) ∧
    ((play state state.ctx.actionPlayers.head?).action = none →
      ClientImpl.step play state = (none, [])) ∧
    (∀ a, (play state state.ctx.actionPlayers.head?).action = some a →
      ClientImpl.step play state =
        (some { a with payload := { a.payload with
            metadata := some (play state state.ctx.actionPlayers.head?).metadata } },
         [{ a with payload := { a.payload with
            metadata := some (play state state.ctx.actionPlayers.head?).metadata } }])) := by
  refine ⟨?_, fun h => ?_, fun a h => ?_⟩
  · cases ai with
    | none => simp [constructStep]
    | some p =>
      cases multiplayer with
      | undefined =>
        have hb : (MultiplayerValue.undefined == MultiplayerValue.undefined)
            = true := rfl
        simp [constructStep, hb]
      | boolean b =>
        have hb : (MultiplayerValue.boolean b == MultiplayerValue.undefined)
            = false := rfl
        simp [constructStep, hb]
  · simp [ClientImpl.step, h]
  · simp [ClientImpl.step, h]

/-- A concrete bot strategy for the C8 witness: always proposes the
same action with metadata 5. -/
def demoPlay : StoreState Nat Nat → Option String → PlayResult Nat :=
  fun _ _ => PlayResult.mk (some (StepAction.mk (StepPayload.mk "m" none))) 5

/-- Witness for C8: with `demoPlay` supplied and multiplayer
unconfigured, `step` exists, and a call dispatches and returns the
proposed action with metadata 5 attached to its payload. -/
theorem step_defined_iff_witness :
    (constructStep (some demoPlay) .undefined).isSome = true ∧
    ClientImpl.step demoPlay (StoreState.mk 0 (Ctx.mk "0" none ["1"]) none) =
      (some (StepAction.mk (StepPayload.mk "m" (some 5))),
       [StepAction.mk (StepPayload.mk "m" (some 5))]) := by
  have h := step_defined_iff (some demoPlay) .undefined demoPlay
    (StoreState.mk 0 (Ctx.mk "0" none ["1"]) none)
  exact ⟨h.1.mpr ⟨rfl, rfl⟩, h.2.2 (StepAction.mk (StepPayload.mk "m" none)) rfl⟩

/-- A call the client makes on the transport component
(`this.multiplayerClient`). -/
inductive TransportCall where
  | updatePlayerID (playerID : PlayerID)
  | updateGameID (gameID : Option String)
deriving DecidableEq, Repr

namespace ClientImpl

/-- Embeds `_ClientImpl.createDispatchers` (lines 267-283): rebuild `moves`
over `game.moveNames` and `events` over `game.flow.eventNames` with the
client's current `playerID`, `credentials` and `multiplayer`. -/
def createDispatchers {γ α : Type} (c : ClientRecord γ α) : ClientRecord γ α :=
  { c with
    moves := @createMoveDispatchers γ α c.game.moveNames c.playerID
      c.credentials c.multiplayer
    events := @createEventDispatchers γ α c.game.flow.eventNames c.playerID
      c.credentials c.multiplayer }

/-- Embeds `_ClientImpl.updatePlayerID` (lines 285-292): set the field,
rebuild the dispatchers, and forward the new id to the transport
component when one is present. Returns the updated client and the
calls made on the transport. -/
def updatePlayerID {γ α : Type} (c : ClientRecord γ α) (playerID : PlayerID) :
    ClientRecord γ α × List TransportCall :=
  let c1 := { c with playerID := playerID }
  let c2 := createDispatchers c1
  (c2, if c2.hasMultiplayerClient then [TransportCall.updatePlayerID playerID]
    else [])

/-- Embeds `_ClientImpl.updateGameID` (lines 294-301): set the field, rebuild
the dispatchers, and forward the new id to the transport component when
one is present. -/
def updateGameID {γ α : Type} (c : ClientRecord γ α) (gameID : Option String) :
    ClientRecord γ α × List TransportCall :=
  let c1 := { c with gameID := gameID }
  let c2 := createDispatchers c1
  (c2, if c2.hasMultiplayerClient then [TransportCall.updateGameID gameID]
    else [])

/-- Embeds `_ClientImpl.updateCredentials` (lines 303-306): set the field and
rebuild the dispatchers; the transport component is not touched. -/
def updateCredentials {γ α : Type} (c : ClientRecord γ α)
    (credentials : Option String) : ClientRecord γ α × List TransportCall :=
  let c1 := { c with credentials := credentials }
  (createDispatchers c1, [])

end ClientImpl

/-- C9: each mutator sets its field and rebuilds both dispatcher sets
from the updated identity; `updatePlayerID` and `updateGameID` forward
the new value to the transport component exactly when one is present,
while `updateCredentials` makes no transport call. -/
theorem mutators_rebuild_dispatchers {γ α : Type} (c : ClientRecord γ α)
    (p : PlayerID) (gid cred : Option String) :
    ((ClientImpl.updatePlayerID c p).1.playerID = p ∧
     (ClientImpl.updatePlayerID c p).1.moves =
       @createMoveDispatchers γ α c.game.moveNames p c.credentials c.multiplayer ∧
     (ClientImpl.updatePlayerID c p).1.events =
       @createEventDispatchers γ α c.game.flow.eventNames p c.credentials
         c.multiplayer ∧
     (ClientImpl.updatePlayerID c p).2 =
       (if c.hasMultiplayerClient then [TransportCall.updatePlayerID p]
        else [])) ∧
    ((ClientImpl.updateGameID c gid).1.gameID = gid ∧
     (ClientImpl.updateGameID c gid).1.moves =
       @createMoveDispatchers γ α c.game.moveNames c.playerID c.credentials
         c.multiplayer ∧
     (ClientImpl.updateGameID c gid).1.events =
       @createEventDispatchers γ α c.game.flow.eventNames c.playerID
         c.credentials c.multiplayer ∧
     (ClientImpl.updateGameID c gid).2 =
       (if c.hasMultiplayerClient then [TransportCall.updateGameID gid]
        else [])) ∧
    ((ClientImpl.updateCredentials c cred).1.credentials = cred ∧
     (ClientImpl.updateCredentials c cred).1.moves =
       @createMoveDispatchers γ α c.game.moveNames c.playerID cred
         c.multiplayer ∧
     (ClientImpl.updateCredentials c cred).1.events =
       @createEventDispatchers γ α c.game.flow.eventNames c.playerID cred
         c.multiplayer ∧
     (ClientImpl.updateCredentials c cred).2 = []) :=
  ⟨⟨rfl, rfl, rfl, rfl⟩, ⟨rfl, rfl, rfl, rfl⟩, ⟨rfl, rfl, rfl, rfl⟩⟩

end BoardgameClient
